import Mathlib

/-
Verification of the NextGlobe repository against its specification.

The repository's own code is a thin composition layer in
`src/src/components/Earth.tsx`:
  - `PLAYFUL_GLOBE_STYLE`, a static declarative style document;
  - the `Earth` React component: a mount effect that constructs one map
    widget, registers `load` / `error` handlers, and returns a cleanup.

We embed the style document as a Lean structure over a JSON-like value
type (every numeric literal in the style is an exact decimal, so numbers
are rationals), and the component lifecycle as a small state machine with
ghost counters instrumenting the externally observable calls
(`map.remove()`, `map.setProjection(...)`, successful constructions).
-/

namespace NextGlobe

/-- JSON-like values: the shape of the declarative object literals in
`Earth.tsx`. Numbers are rationals, since every numeric literal in the
style document is an exact decimal. -/
inductive JValue : Type where
  | str : String → JValue
  | num : ℚ → JValue
  | arr : List JValue → JValue
  | obj : List (String × JValue) → JValue

/-- Component-visible state of the `Earth` component together with ghost
counters for the calls it makes on the widget:
  - `mapRef` models whether `mapRef.current` is non-null;
  - `status` is the `status` string state (`useState`);
  - `removeCount` counts invocations of `map.remove()`;
  - `setProjectionCount` counts invocations of `map.setProjection`;
  - `constructCount` counts successful widget constructions. -/
structure EarthState where
  mapRef : Bool
  status : String
  removeCount : Nat
  setProjectionCount : Nat
  constructCount : Nat
deriving DecidableEq, Repr

/-- Initial state: `useState<string>('Initializing Globe...')`, null ref,
no calls made yet. -/
def initialState : EarthState :=
  { mapRef := false
    status := "Initializing Globe..."
    removeCount := 0
    setProjectionCount := 0
    constructCount := 0 }

/-- Outcome of evaluating `new maplibregl.Map({...})`: either a widget is
constructed, or a synchronous exception with the given message is thrown. -/
inductive ConstructResult : Type where
  | ok : ConstructResult
  | throws : String → ConstructResult
deriving DecidableEq, Repr

/-- Whether construction succeeded. -/
def ConstructResult.isOk : ConstructResult → Bool
  | .ok => true
  | .throws _ => false

/-- Environment a single execution of the mount effect runs in:
whether `mapContainer.current` is non-null, the outcome of widget
construction, and whether the constructed widget exposes a
`setProjection` method (the code guards on `if (map.setProjection)`). -/
structure MountEnv where
  containerPresent : Bool
  construct : ConstructResult
  hasSetProjection : Bool
deriving DecidableEq, Repr

/-- Result of one execution of the mount effect body: the state afterwards
and whether a cleanup function was returned to the framework (the two
early `return;` paths return no cleanup). -/
structure EffectResult where
  state : EarthState
  cleanupRegistered : Bool
deriving DecidableEq, Repr

/-- The body of the `useEffect` in `Earth`:
  - `if (mapRef.current) return;` — skip everything, no cleanup returned;
  - `if (!container) return;` — skip everything, no cleanup returned;
  - `try { const map = new maplibregl.Map({...}); mapRef.current = map; ... }
     catch (error) { setStatus("Initialization Failed: " + error.message) }`;
  - in both the success and the catch path the effect reaches its final
    `return () => {...}`, registering the cleanup. -/
def mountEffect (env : MountEnv) (s : EarthState) : EffectResult :=
  if s.mapRef then
    { state := s, cleanupRegistered := false }
  else if !env.containerPresent then
    { state := s, cleanupRegistered := false }
  else
    match env.construct with
    | .ok =>
        { state := { s with mapRef := true, constructCount := s.constructCount + 1 }
          cleanupRegistered := true }
    | .throws m =>
        { state := { s with status := "Initialization Failed: " ++ m }
          cleanupRegistered := true }

/-- Whether `pat` is a prefix of the second list. -/
def charsPrefix : List Char → List Char → Bool
  | [], _ => true
  | _ :: _, [] => false
  | a :: as, b :: bs => a == b && charsPrefix as bs

/-- Whether `pat` occurs as a contiguous sublist. -/
def charsInfix (pat : List Char) : List Char → Bool
  | [] => pat.isEmpty
  | c :: rest => charsPrefix pat (c :: rest) || charsInfix pat rest

/-- JavaScript `s.includes(pat)` on strings: substring containment. -/
def strIncludes (s pat : String) : Bool :=
  charsInfix pat.toList s.toList

/-- The `map.on('load', ...)` handler: `setStatus('')`, then
`if (map.setProjection) map.setProjection({ type: 'globe' })`. -/
def onLoad (hasSetProjection : Bool) (s : EarthState) : EarthState :=
  let s1 := { s with status := "" }
  if hasSetProjection then
    { s1 with setProjectionCount := s1.setProjectionCount + 1 }
  else
    s1

/-- The `map.on('error', ...)` handler. The argument models
`e.error?.message`: `none` when the error object is absent or carries no
message, `some m` when a message string is present.  The guard
`e.error?.message && !...includes('glyph') && !...includes('sprite')`
treats the empty string as falsy, exactly as JavaScript does. -/
def onError (msg : Option String) (s : EarthState) : EarthState :=
  match msg with
  | none => s
  | some m =>
      if m ≠ "" && !(strIncludes m "glyph") && !(strIncludes m "sprite") then
        { s with status := "Error: " ++ m }
      else
        s

/-- The cleanup function returned by the effect:
`if (mapRef.current) { mapRef.current.remove(); mapRef.current = null; }`. -/
def cleanup (s : EarthState) : EarthState :=
  if s.mapRef then
    { s with removeCount := s.removeCount + 1, mapRef := false }
  else
    s

/-- An asynchronous event delivered by the widget to the registered
handlers. -/
inductive MapEvent : Type where
  | load : MapEvent
  | error : Option String → MapEvent
deriving DecidableEq, Repr

/-- Dispatch one event to the corresponding handler. -/
def applyEvent (hasSetProjection : Bool) (s : EarthState) : MapEvent → EarthState
  | .load => onLoad hasSetProjection s
  | .error m => onError m s

/-- Deliver a sequence of events. -/
def runEvents (hasSetProjection : Bool) (s : EarthState) (evs : List MapEvent) : EarthState :=
  evs.foldl (applyEvent hasSetProjection) s

/-- A complete lifecycle of one component instance: run the mount effect
once in environment `env` starting from the initial state, deliver the
asynchronous events `evs` (handlers exist only when a widget was
constructed, i.e. when `mapRef` was set), then unmount: the framework
invokes the registered cleanup, if any. -/
def lifecycle (env : MountEnv) (evs : List MapEvent) : EarthState :=
  let r := mountEffect env initialState
  let s := if r.state.mapRef then runEvents env.hasSetProjection r.state evs else r.state
  if r.cleanupRegistered then cleanup s else s

/-- One layer of the style document.  Optional fields mirror the keys that
are present on only some of the layer literals in `Earth.tsx`; `paint` is
present on every layer there. -/
structure Layer where
  id : String
  type : String
  source : Option String := none
  sourceLayer : Option String := none
  minzoom : Option ℚ := none
  filter : Option JValue := none
  layout : Option (List (String × JValue)) := none
  paint : List (String × JValue)

/-- The style document: the shape of the `PLAYFUL_GLOBE_STYLE` object
literal. -/
structure Style where
  version : ℚ
  name : String
  sources : List (String × JValue)
  layers : List Layer
  glyphs : String
  sprite : String
  fog : List (String × JValue)

/-- The static style document `PLAYFUL_GLOBE_STYLE` from `Earth.tsx`,
transcribed field by field (URL template braces are written with
hexadecimal escapes; the strings are identical to the source). -/
def PLAYFUL_GLOBE_STYLE : Style :=
  { version := 8
    name := "Playful Illustrated Globe"
    sources :=
      [ ("terrain", JValue.obj
          [ ("type", JValue.str "raster")
          , ("tiles", JValue.arr
              [ JValue.str "https://server.arcgisonline.com/ArcGIS/rest/services/World_Physical_Map/MapServer/tile/\x7bz\x7d/\x7by\x7d/\x7bx\x7d" ])
          , ("tileSize", JValue.num 256)
          , ("maxzoom", JValue.num 8)
          , ("attribution", JValue.str "© Esri") ])
      , ("openmaptiles", JValue.obj
          [ ("type", JValue.str "vector")
          , ("url", JValue.str "https://tiles.openfreemap.org/planet") ]) ]
    layers :=
      [ { id := "background"
          type := "background"
          paint := [ ("background-color", JValue.str "rgb(2, 4, 8)") ] }
      , { id := "terrain-raster"
          type := "raster"
          source := some "terrain"
          paint :=
            [ ("raster-opacity", JValue.num 1)
            , ("raster-saturation", JValue.num 0.6)
            , ("raster-contrast", JValue.num 0.1)
            , ("raster-brightness-min", JValue.num 0.2) ] }
      , { id := "water-fill"
          type := "fill"
          source := some "openmaptiles"
          sourceLayer := some "water"
          paint :=
            [ ("fill-color", JValue.str "rgb(60, 140, 210)")
            , ("fill-opacity", JValue.num 0.5) ] }
      , { id := "coastline-glow"
          type := "line"
          source := some "openmaptiles"
          sourceLayer := some "water"
          paint :=
            [ ("line-color", JValue.str "rgb(160, 230, 255)")
            , ("line-width", JValue.num 2)
            , ("line-blur", JValue.num 1)
            , ("line-opacity", JValue.num 0.6) ] }
      , { id := "landcover-green"
          type := "fill"
          source := some "openmaptiles"
          sourceLayer := some "landcover"
          paint :=
            [ ("fill-color", JValue.str "rgb(130, 235, 120)")
            , ("fill-opacity", JValue.num 0.45) ] }
      , { id := "landuse-green"
          type := "fill"
          source := some "openmaptiles"
          sourceLayer := some "landuse"
          paint :=
            [ ("fill-color", JValue.str "rgb(150, 230, 140)")
            , ("fill-opacity", JValue.num 0.35) ] }
      , { id := "continent-label"
          type := "symbol"
          source := some "openmaptiles"
          sourceLayer := some "place"
          filter := some (JValue.arr
            [ JValue.str "==", JValue.str "class", JValue.str "continent" ])
          layout := some
            [ ("text-field", JValue.str "\x7bname:en\x7d")
            , ("text-font", JValue.arr [ JValue.str "Noto Sans Bold" ])
            , ("text-size", JValue.num 18)
            , ("text-transform", JValue.str "uppercase")
            , ("text-letter-spacing", JValue.num 0.3) ]
          paint :=
            [ ("text-color", JValue.str "rgb(100, 110, 120)")
            , ("text-halo-color", JValue.str "rgba(255, 255, 255, 0.8)")
            , ("text-halo-width", JValue.num 2) ] }
      , { id := "country-label"
          type := "symbol"
          source := some "openmaptiles"
          sourceLayer := some "place"
          filter := some (JValue.arr
            [ JValue.str "==", JValue.str "class", JValue.str "country" ])
          layout := some
            [ ("text-field", JValue.str "\x7bname:en\x7d")
            , ("text-font", JValue.arr [ JValue.str "Noto Sans Regular" ])
            , ("text-size", JValue.arr
                [ JValue.str "interpolate"
                , JValue.arr [ JValue.str "linear" ]
                , JValue.arr [ JValue.str "zoom" ]
                , JValue.num 2, JValue.num 10, JValue.num 5, JValue.num 14 ])
            , ("text-transform", JValue.str "uppercase")
            , ("text-letter-spacing", JValue.num 0.1) ]
          paint :=
            [ ("text-color", JValue.str "rgb(120, 130, 140)")
            , ("text-halo-color", JValue.str "rgba(255, 255, 255, 0.7)")
            , ("text-halo-width", JValue.num 1.5) ] }
      , { id := "city-label"
          type := "symbol"
          source := some "openmaptiles"
          sourceLayer := some "place"
          minzoom := some 3
          filter := some (JValue.arr
            [ JValue.str "in", JValue.str "class"
            , JValue.str "city", JValue.str "town" ])
          layout := some
            [ ("text-field", JValue.str "\x7bname:en\x7d")
            , ("text-font", JValue.arr [ JValue.str "Noto Sans Regular" ])
            , ("text-size", JValue.arr
                [ JValue.str "interpolate"
                , JValue.arr [ JValue.str "linear" ]
                , JValue.arr [ JValue.str "zoom" ]
                , JValue.num 3, JValue.num 9, JValue.num 8, JValue.num 12 ])
            , ("text-anchor", JValue.str "bottom")
            , ("text-offset", JValue.arr [ JValue.num 0, JValue.num (-0.5) ]) ]
          paint :=
            [ ("text-color", JValue.str "rgb(80, 90, 100)")
            , ("text-halo-color", JValue.str "white")
            , ("text-halo-width", JValue.num 1) ] } ]
    glyphs := "https://tiles.openfreemap.org/fonts/\x7bfontstack\x7d/\x7brange\x7d.pbf"
    sprite := "https://tiles.openfreemap.org/sprites/ofm_f384/ofm"
    fog :=
      [ ("range", JValue.arr [ JValue.num 1, JValue.num 15 ])
      , ("color", JValue.str "rgb(255, 255, 255)")
      , ("high-color", JValue.str "rgb(200, 230, 255)")
      , ("horizon-blend", JValue.num 0.05)
      , ("space-color", JValue.str "rgb(5, 5, 10)")
      , ("star-intensity", JValue.num 0.15) ] }

/-- Emit an optional JSON field (absent keys are omitted, as in the object
literals of the source). -/
def optField (k : String) : Option JValue → List (String × JValue)
  | none => []
  | some v => [(k, v)]

/-- Modelled from the spec: the repository itself contains no
serialization code, but the spec requires that "serializing and
deserializing the style document (e.g., for persistence or transmission)
must reproduce an identical layer ordering and parameter set".  We model
serialization as the evident map onto JSON-like values, emitting a
layer's keys in the order they appear in the source literal and omitting
absent optional keys. -/
def layerToJ (l : Layer) : JValue :=
  JValue.obj
    ([("id", JValue.str l.id), ("type", JValue.str l.type)]
      ++ optField "source" (l.source.map JValue.str)
      ++ optField "source-layer" (l.sourceLayer.map JValue.str)
      ++ optField "minzoom" (l.minzoom.map JValue.num)
      ++ optField "filter" l.filter
      ++ optField "layout" (l.layout.map JValue.obj)
      ++ [("paint", JValue.obj l.paint)])

/-- Modelled from the spec: serialization of the whole style document
(see `layerToJ`). -/
def styleToJ (st : Style) : JValue :=
  JValue.obj
    [ ("version", JValue.num st.version)
    , ("name", JValue.str st.name)
    , ("sources", JValue.obj st.sources)
    , ("layers", JValue.arr (st.layers.map layerToJ))
    , ("glyphs", JValue.str st.glyphs)
    , ("sprite", JValue.str st.sprite)
    , ("fog", JValue.obj st.fog) ]

/-- Look a key up in a JSON object's field list. -/
def lookupField (fs : List (String × JValue)) (k : String) : Option JValue :=
  match fs.find? (fun p => p.1 == k) with
  | some p => some p.2
  | none => none

/-- Expect a JSON string. -/
def asStr : JValue → Option String
  | .str s => some s
  | _ => none

/-- Expect a JSON number. -/
def asNum : JValue → Option ℚ
  | .num q => some q
  | _ => none

/-- Expect a JSON array. -/
def asArr : JValue → Option (List JValue)
  | .arr xs => some xs
  | _ => none

/-- Expect a JSON object, returning its field list. -/
def asObjFields : JValue → Option (List (String × JValue))
  | .obj fs => some fs
  | _ => none

/-- Parse an optional field: absence is fine, a present field must parse. -/
def optParse (fs : List (String × JValue)) (k : String)
    (f : JValue → Option α) : Option (Option α) :=
  match lookupField fs k with
  | none => some none
  | some v => (f v).map some

/-- Modelled from the spec: deserialization of one layer (inverse of
`layerToJ`). -/
def layerFromJ (j : JValue) : Option Layer :=
  match j with
  | .obj fs => do
      let i ← lookupField fs "id" >>= asStr
      let t ← lookupField fs "type" >>= asStr
      let src ← optParse fs "source" asStr
      let sl ← optParse fs "source-layer" asStr
      let mz ← optParse fs "minzoom" asNum
      let fil ← optParse fs "filter" some
      let lay ← optParse fs "layout" asObjFields
      let p ← lookupField fs "paint" >>= asObjFields
      some { id := i, type := t, source := src, sourceLayer := sl
             minzoom := mz, filter := fil, layout := lay, paint := p }
  | _ => none

/-- Modelled from the spec: deserialization of the style document
(inverse of `styleToJ`). -/
def styleFromJ (j : JValue) : Option Style :=
  match j with
  | .obj fs => do
      let v ← lookupField fs "version" >>= asNum
      let n ← lookupField fs "name" >>= asStr
      let srcs ← lookupField fs "sources" >>= asObjFields
      let ls ← lookupField fs "layers" >>= asArr
      let layers ← ls.mapM layerFromJ
      let g ← lookupField fs "glyphs" >>= asStr
      let sp ← lookupField fs "sprite" >>= asStr
      let fg ← lookupField fs "fog" >>= asObjFields
      some { version := v, name := n, sources := srcs, layers := layers
             glyphs := g, sprite := sp, fog := fg }
  | _ => none

/-- Whether a JSON value is an expression invoking the `interpolate`
operator (an array whose head is the string `"interpolate"`). -/
def isInterpCall : JValue → Bool
  | .arr (.str "interpolate" :: _) => true
  | _ => false

mutual

/-- All `interpolate` expressions occurring anywhere inside a JSON value. -/
def interpExprs : JValue → List JValue
  | .str _ => []
  | .num _ => []
  | .arr xs =>
      (if isInterpCall (.arr xs) then [JValue.arr xs] else []) ++ interpExprsList xs
  | .obj fs => interpExprsFields fs

/-- All `interpolate` expressions inside a list of JSON values. -/
def interpExprsList : List JValue → List JValue
  | [] => []
  | x :: xs => interpExprs x ++ interpExprsList xs

/-- All `interpolate` expressions inside an object's fields. -/
def interpExprsFields : List (String × JValue) → List JValue
  | [] => []
  | f :: fs => interpExprs f.2 ++ interpExprsFields fs

end

/-- Parse alternating zoom/value breakpoints. -/
def stopsOf : List JValue → Option (List (ℚ × ℚ))
  | [] => some []
  | .num z :: .num v :: rest => (stopsOf rest).map (fun l => (z, v) :: l)
  | _ => none

/-- Recognize a linear zoom interpolation
`["interpolate", ["linear"], ["zoom"], z1, v1, z2, v2, ...]` and return
its breakpoint pairs. -/
def linearZoomStops : JValue → Option (List (ℚ × ℚ))
  | .arr (.str "interpolate" :: .arr [.str "linear"] :: .arr [.str "zoom"] :: rest) =>
      stopsOf rest
  | _ => none

/-- All `interpolate` expressions in a layer's paint and layout specs
(layout first, matching source order). -/
def layerInterpExprs (l : Layer) : List JValue :=
  (match l.layout with
   | some fs => interpExprsFields fs
   | none => []) ++ interpExprsFields l.paint

/-- All `interpolate` expressions in a style's layers' paint/layout. -/
def styleInterpExprs (st : Style) : List JValue :=
  (st.layers.map layerInterpExprs).flatten

/-- Find a layer by id. -/
def layerById (st : Style) (i : String) : Option Layer :=
  st.layers.find? (fun l => l.id == i)

/-- Look a key up in a layer's layout spec. -/
def layoutValue (l : Layer) (k : String) : Option JValue :=
  match l.layout with
  | some fs => lookupField fs k
  | none => none

/-- Repeated executions of the mount effect on the same component
instance, threading the state through. -/
def runEffects (envs : List MountEnv) : EarthState :=
  envs.foldl (fun s env => (mountEffect env s).state) initialState

/-- Event handlers never touch `mapRef.current`, never call `remove()`
and never construct a widget: they only update `status` and possibly call
`setProjection`. -/
theorem applyEvent_preserves (h : Bool) (s : EarthState) (e : MapEvent) :
    (applyEvent h s e).mapRef = s.mapRef ∧
    (applyEvent h s e).removeCount = s.removeCount := by
  cases e with
  | load => cases h <;> simp [applyEvent, onLoad]
  | error m =>
      cases m with
      | none => simp [applyEvent, onError]
      | some m =>
          simp only [applyEvent, onError]
          split <;> simp

/-- Delivering any sequence of events preserves `mapRef` and the number
of `remove()` calls. -/
theorem runEvents_preserves (h : Bool) (evs : List MapEvent) (s : EarthState) :
    (runEvents h s evs).mapRef = s.mapRef ∧
    (runEvents h s evs).removeCount = s.removeCount := by
  induction evs generalizing s with
  | nil => exact ⟨rfl, rfl⟩
  | cons e es ih =>
      have h1 := applyEvent_preserves h s e
      have h2 := ih (applyEvent h s e)
      simp only [runEvents, List.foldl] at h2 ⊢
      exact ⟨h2.1.trans h1.1, h2.2.trans h1.2⟩

/-- Claim C1, counterexample to the claim as stated: when the container
is absent the mount effect returns before registering any cleanup, so on
unmount the widget disposal method is invoked zero times, not exactly
once. -/
theorem c1_counterexample :
    (lifecycle
        { containerPresent := false, construct := ConstructResult.ok
          hasSetProjection := true } []).removeCount ≠ 1 := by
  decide

/-- Claim C1, amended: after unmount the widget instance reference is
always null; disposal (`map.remove()`) is invoked exactly once when a
widget instance was actually constructed (container present and
construction succeeded), and zero times when mount never completed
(container absent, or construction threw), since there is then no widget
to dispose. -/
theorem c1_unmount_disposal (env : MountEnv) (evs : List MapEvent) :
    (lifecycle env evs).mapRef = false ∧
    (lifecycle env evs).removeCount =
      (if env.containerPresent && env.construct.isOk then 1 else 0) := by
  obtain ⟨cp, cr, hsp⟩ := env
  cases cp with
  | false =>
      cases cr <;>
        simp [lifecycle, mountEffect, initialState, ConstructResult.isOk]
  | true =>
      cases cr with
      | throws m =>
          simp [lifecycle, mountEffect, initialState, cleanup,
            ConstructResult.isOk]
      | ok =>
          have hp := runEvents_preserves hsp evs
            { mapRef := true, status := "Initializing Globe..."
              removeCount := 0, setProjectionCount := 0, constructCount := 1 }
          obtain ⟨hp1, hp2⟩ := hp
          simp only [] at hp1 hp2
          simp [lifecycle, mountEffect, initialState, cleanup,
            ConstructResult.isOk, hp1, hp2]

/-- Claim C2: an asynchronous error whose message contains "glyph" or
"sprite" is suppressed: the handler leaves the component state (in
particular the status text) unchanged. -/
theorem c2_glyph_sprite_suppressed (m : String) (s : EarthState)
    (h : strIncludes m "glyph" = true ∨ strIncludes m "sprite" = true) :
    onError (some m) s = s := by
  rcases h with h | h <;> simp [onError, h]

/-- Witness for C2 at the spec's concrete message "glyph fetch failed". -/
theorem c2_witness :
    (strIncludes "glyph fetch failed" "glyph" = true ∨
      strIncludes "glyph fetch failed" "sprite" = true) ∧
    onError (some "glyph fetch failed") initialState = initialState :=
  ⟨Or.inl (by decide),
    c2_glyph_sprite_suppressed "glyph fetch failed" initialState
      (Or.inl (by decide))⟩

/-- Claim C3: an asynchronous error carrying a (non-empty, hence truthy)
message that contains neither "glyph" nor "sprite" sets the status text
to "Error: " followed by the message, leaving the rest of the state
unchanged. -/
theorem c3_error_status (m : String) (s : EarthState)
    (hne : m ≠ "")
    (hg : strIncludes m "glyph" = false)
    (hs : strIncludes m "sprite" = false) :
    onError (some m) s = { s with status := "Error: " ++ m } := by
  simp [onError, hne, hg, hs]

/-- Witness for C3 at the spec's concrete message "WebGL context lost". -/
theorem c3_witness :
    ("WebGL context lost" ≠ "" ∧
      strIncludes "WebGL context lost" "glyph" = false ∧
      strIncludes "WebGL context lost" "sprite" = false) ∧
    (onError (some "WebGL context lost") initialState).status =
      "Error: WebGL context lost" :=
  ⟨⟨by decide, by decide, by decide⟩, by
    rw [c3_error_status "WebGL context lost" initialState (by decide)
      (by decide) (by decide)]
    rfl⟩

/-- Claim C4: a synchronous exception thrown during widget construction
is caught locally — the mount effect still completes normally and
registers its cleanup — and the status text becomes
"Initialization Failed: " followed by the exception message. -/
theorem c4_construction_failure (m : String) (hsp : Bool) (s : EarthState)
    (h : s.mapRef = false) :
    (mountEffect
        { containerPresent := true, construct := ConstructResult.throws m
          hasSetProjection := hsp } s) =
      { state := { s with status := "Initialization Failed: " ++ m }
        cleanupRegistered := true } := by
  simp [mountEffect, h]

/-- Witness for C4 at the spec's concrete message "invalid container". -/
theorem c4_witness :
    initialState.mapRef = false ∧
    (mountEffect
        { containerPresent := true
          construct := ConstructResult.throws "invalid container"
          hasSetProjection := true } initialState).state.status =
      "Initialization Failed: invalid container" :=
  ⟨rfl, by
    rw [c4_construction_failure "invalid container" true initialState rfl]
    rfl⟩

/-- Claim C5: delivering the asynchronous "load" event clears the status
text to the empty string and invokes the projection re-assertion
(`map.setProjection({ type: 'globe' })`) exactly once; the widget
constructed by the code (`maplibregl.Map`) exposes `setProjection`, so
the defensive existence guard in the handler passes. -/
theorem c5_load_clears_status (s : EarthState) :
    onLoad true s =
      { s with status := "", setProjectionCount := s.setProjectionCount + 1 } := by
  rfl

/-- Claim C6: over any sequence of executions of the mount effect, at
most one widget is ever constructed, and whenever the instance reference
is already non-null the effect skips construction entirely (the state is
untouched and no cleanup is registered). -/
theorem c6_single_construction (envs : List MountEnv) :
    (runEffects envs).constructCount ≤ 1 ∧
    ∀ (env : MountEnv) (s : EarthState), mountEffect env { s with mapRef := true } =
      { state := { s with mapRef := true }, cleanupRegistered := false } := by
  constructor
  · have key : ∀ (l : List MountEnv) (s : EarthState),
        s.constructCount = (if s.mapRef then 1 else 0) →
        (l.foldl (fun s env => (mountEffect env s).state) s).constructCount =
          (if (l.foldl (fun s env => (mountEffect env s).state) s).mapRef
            then 1 else 0) := by
      intro l
      induction l with
      | nil => intro s h; exact h
      | cons e es ih =>
          intro s h
          apply ih
          obtain ⟨cp, cr, hsp⟩ := e
          cases hm : s.mapRef with
          | true => simpa [mountEffect, hm] using h
          | false =>
              cases cp with
              | false => simpa [mountEffect, hm] using h
              | true =>
                  cases cr with
                  | ok => simp [mountEffect, hm] at h ⊢; simp [h]
                  | throws m => simpa [mountEffect, hm] using h
    have h0 := key envs initialState (by decide)
    rw [runEffects, h0]
    split <;> simp
  · intro env s
    simp [mountEffect]

/-- Claim C7: the layers of the static style document are exactly the
nine authored ids, in order. -/
theorem c7_layer_order :
    PLAYFUL_GLOBE_STYLE.layers.map Layer.id =
      [ "background", "terrain-raster", "water-fill", "coastline-glow"
      , "landcover-green", "landuse-green", "continent-label"
      , "country-label", "city-label" ] := by
  rfl

/-- Claim C8: serializing the static style document and deserializing it
again reproduces the document identically — layer ordering and every
source, paint, layout, filter, glyph/sprite and fog parameter included. -/
theorem c8_style_roundtrip :
    styleFromJ (styleToJ PLAYFUL_GLOBE_STYLE) = some PLAYFUL_GLOBE_STYLE := by
  rfl

/-- Claim C9: the only zoom-interpolated paint/layout values in the style
document are the country-label and city-label text sizes, both linear
interpolations over explicit zoom/value breakpoints: (2, 10), (5, 14)
for country labels and (3, 9), (8, 12) for city labels. -/
theorem c9_interpolation_breakpoints :
    (styleInterpExprs PLAYFUL_GLOBE_STYLE).map linearZoomStops =
      [ some [(2, 10), (5, 14)], some [(3, 9), (8, 12)] ] ∧
    ((layerById PLAYFUL_GLOBE_STYLE "country-label").bind
        (fun l => layoutValue l "text-size")).bind linearZoomStops =
      some [(2, 10), (5, 14)] ∧
    ((layerById PLAYFUL_GLOBE_STYLE "city-label").bind
        (fun l => layoutValue l "text-size")).bind linearZoomStops =
      some [(3, 9), (8, 12)] := by
  exact ⟨rfl, rfl, rfl⟩

/-- Claim C10: an asynchronous error event with no error object, no
message, or an empty message never changes the component state: the
truthiness guard on `e.error?.message` fails, so no status update is
performed. -/
theorem c10_empty_message_ignored (s : EarthState) (m : Option String)
    (h : m = none ∨ m = some "") :
    onError m s = s := by
  rcases h with h | h <;> subst h <;> rfl

/-- Witness for C10 at the concrete inputs `none` and `some ""`. -/
theorem c10_witness :
    ((none : Option String) = none ∨ (none : Option String) = some "") ∧
    onError none initialState = initialState ∧
    onError (some "") initialState = initialState :=
  ⟨Or.inl rfl,
    c10_empty_message_ignored initialState none (Or.inl rfl),
    c10_empty_message_ignored initialState (some "") (Or.inr rfl)⟩

end NextGlobe
